import Mathlib

/-!
Shallow embedding of the token-ranking utility (src/gmgn_api.py, src/gmgntry.py).

Python dynamic values are modelled by the inductive type `PyVal`; Python
floats are modelled by rationals (only order comparisons and exact small
arithmetic occur in the embedded code), Python ints by `Int`.  Fallible
Python operations (coercions that can raise, the JSON parse, the HTTP
request) return `Option` or `Except`.
-/

/-- A Python/JSON value, as it appears in API responses and keyword maps.
Dictionaries are association lists with string keys (first binding wins,
matching Python dict lookup on unique keys). -/
inductive PyVal : Type where
  | vNone : PyVal
  | vBool : Bool → PyVal
  | vInt : ℤ → PyVal
  | vFloat : ℚ → PyVal
  | vStr : String → PyVal
  | vList : List PyVal → PyVal
  | vDict : List (String × PyVal) → PyVal

/-- Python truthiness (`bool(x)`): None, 0, 0.0, empty string/list/dict are
falsy, everything else truthy. -/
def pyTruthy : PyVal → Bool
  | .vNone => false
  | .vBool b => b
  | .vInt n => decide (n ≠ 0)
  | .vFloat q => decide (q ≠ 0)
  | .vStr s => decide (s ≠ "")
  | .vList l => !l.isEmpty
  | .vDict d => !d.isEmpty

/-- All characters are decimal digits and the list is nonempty. -/
def allDigits (cs : List Char) : Bool :=
  !cs.isEmpty && cs.all (fun c => c.isDigit)

/-- Numeric value of a list of decimal digit characters. -/
def digitsVal (cs : List Char) : ℕ :=
  cs.foldl (fun acc c => 10 * acc + (c.toNat - 48)) 0

/-- Models Python `int(s)` on strings: an optionally signed run of decimal
digits; anything else raises (returns `none`).  (Python also accepts
surrounding whitespace and underscore separators; those inputs are not
modelled and are rejected here.) -/
def pyIntOfString (s : String) : Option ℤ :=
  match s.toList with
  | '-' :: rest => if allDigits rest then some (-(digitsVal rest : ℤ)) else none
  | '+' :: rest => if allDigits rest then some ((digitsVal rest : ℤ)) else none
  | cs => if allDigits cs then some ((digitsVal cs : ℤ)) else none

/-- Value of an unsigned decimal literal split as integer part and
fractional part. -/
def decimalVal (ip fp : List Char) : ℚ :=
  (digitsVal ip : ℚ) + (digitsVal fp : ℚ) / ((10 : ℚ) ^ fp.length)

/-- Models Python `float(s)` on an unsigned string: digits with at most one
decimal point, at least one digit overall.  (Exponents, `inf`/`nan`,
whitespace and underscores are not modelled and are rejected.) -/
def unsignedFloatOfChars (cs : List Char) : Option ℚ :=
  match cs.splitOn '.' with
  | [ds] => if allDigits ds then some ((digitsVal ds : ℚ)) else none
  | [ip, fp] =>
      if ip.all (fun c => c.isDigit) && fp.all (fun c => c.isDigit)
          && !(ip.isEmpty && fp.isEmpty) then
        some (decimalVal ip fp)
      else none
  | _ => none

/-- Models Python `float(s)` on strings: optional sign, then an unsigned
decimal literal. -/
def pyFloatOfString (s : String) : Option ℚ :=
  match s.toList with
  | '-' :: rest => (unsignedFloatOfChars rest).map (fun q => -q)
  | '+' :: rest => unsignedFloatOfChars rest
  | cs => unsignedFloatOfChars cs

/-- Models Python `float(x)`: succeeds on ints, floats, bools and decimal
numeric strings; raises (returns `none`) on None, lists and dicts. -/
def pyFloat : PyVal → Option ℚ
  | .vInt n => some ((n : ℚ))
  | .vFloat q => some q
  | .vBool b => some (if b then 1 else 0)
  | .vStr s => pyFloatOfString s
  | _ => none

/-- Models Python `int(x)`: succeeds on ints, bools, floats (truncating
toward zero) and signed decimal digit strings; raises (returns `none`)
otherwise. -/
def pyInt : PyVal → Option ℤ
  | .vInt n => some n
  | .vFloat q => some (Int.tdiv q.num (q.den : ℤ))
  | .vBool b => some (if b then 1 else 0)
  | .vStr s => pyIntOfString s
  | _ => none

/-- Models Python `data.get(key, dflt)` on a dict. -/
def dictGet (data : List (String × PyVal)) (key : String) (dflt : PyVal) : PyVal :=
  match data.lookup key with
  | some v => v
  | none => dflt

/-- Models Python `data.get(key)` (default None). -/
def dictGetNone (data : List (String × PyVal)) (key : String) : PyVal :=
  dictGet data key .vNone

/-- The `Token` dataclass (src/gmgn_api.py lines 113-143).  Fields that the
Python constructor stores uncoerced (no `float()`/`int()` around the
`data.get`) keep the dynamic type `PyVal`; fields passed through `float()`
are `ℚ`, fields passed through `int()` are `ℤ`. -/
structure Token where
  id : PyVal
  chain : PyVal
  address : PyVal
  symbol : PyVal
  price : ℚ
  volume : ℚ
  liquidity : ℚ
  market_cap : ℚ
  holder_count : ℤ
  swaps : ℤ
  price_change_percent : ℚ
  price_change_percent1m : ℚ
  price_change_percent5m : ℚ
  price_change_percent1h : ℚ
  smart_buy_24h : ℤ
  smart_sell_24h : ℤ
  is_honeypot : ℤ
  is_open_source : ℤ
  renounced : ℤ
  bluechip_owner_percentage : ℚ
  logo : PyVal
  buy_tax : PyVal
  sell_tax : PyVal
  total_supply : PyVal
  buys : PyVal
  sells : PyVal
  sniper_count : PyVal
  lock_info : PyVal

/-- `Token.from_dict` (src/gmgn_api.py lines 145-177).  A failing `float()`
or `int()` coercion raises in Python; this is modelled by `none`. -/
def Token.from_dict (data : List (String × PyVal)) : Option Token := do
  let price ← pyFloat (dictGet data "price" (.vInt 0))
  let volume ← pyFloat (dictGet data "volume" (.vInt 0))
  let liquidity ← pyFloat (dictGet data "liquidity" (.vInt 0))
  let market_cap ← pyFloat (dictGet data "market_cap" (.vInt 0))
  let holder_count ← pyInt (dictGet data "holder_count" (.vInt 0))
  let swaps ← pyInt (dictGet data "swaps" (.vInt 0))
  let price_change_percent ← pyFloat (dictGet data "price_change_percent" (.vInt 0))
  let price_change_percent1m ← pyFloat (dictGet data "price_change_percent1m" (.vInt 0))
  let price_change_percent5m ← pyFloat (dictGet data "price_change_percent5m" (.vInt 0))
  let price_change_percent1h ← pyFloat (dictGet data "price_change_percent1h" (.vInt 0))
  let smart_buy_24h ← pyInt (dictGet data "smart_buy_24h" (.vInt 0))
  let smart_sell_24h ← pyInt (dictGet data "smart_sell_24h" (.vInt 0))
  let is_honeypot ← pyInt (dictGet data "is_honeypot" (.vInt 0))
  let is_open_source ← pyInt (dictGet data "is_open_source" (.vInt 0))
  let renounced ← pyInt (dictGet data "renounced" (.vInt 0))
  let bluechip_owner_percentage ← pyFloat (dictGet data "bluechip_owner_percentage" (.vInt 0))
  some
    { id := dictGet data "id" (.vInt 0)
      chain := dictGet data "chain" (.vStr "")
      address := dictGet data "address" (.vStr "")
      symbol := dictGet data "symbol" (.vStr "")
      price := price
      volume := volume
      liquidity := liquidity
      market_cap := market_cap
      holder_count := holder_count
      swaps := swaps
      price_change_percent := price_change_percent
      price_change_percent1m := price_change_percent1m
      price_change_percent5m := price_change_percent5m
      price_change_percent1h := price_change_percent1h
      smart_buy_24h := smart_buy_24h
      smart_sell_24h := smart_sell_24h
      is_honeypot := is_honeypot
      is_open_source := is_open_source
      renounced := renounced
      bluechip_owner_percentage := bluechip_owner_percentage
      logo := dictGetNone data "logo"
      buy_tax := dictGetNone data "buy_tax"
      sell_tax := dictGetNone data "sell_tax"
      total_supply := dictGetNone data "total_supply"
      buys := dictGetNone data "buys"
      sells := dictGetNone data "sells"
      sniper_count := dictGetNone data "sniper_count"
      lock_info := dictGetNone data "lockInfo" }

/-- The all-defaults token: what `Token.from_dict` builds from an empty
mapping. -/
def tokenDefault : Token where
  id := .vInt 0
  chain := .vStr ""
  address := .vStr ""
  symbol := .vStr ""
  price := 0
  volume := 0
  liquidity := 0
  market_cap := 0
  holder_count := 0
  swaps := 0
  price_change_percent := 0
  price_change_percent1m := 0
  price_change_percent5m := 0
  price_change_percent1h := 0
  smart_buy_24h := 0
  smart_sell_24h := 0
  is_honeypot := 0
  is_open_source := 0
  renounced := 0
  bluechip_owner_percentage := 0
  logo := .vNone
  buy_tax := .vNone
  sell_tax := .vNone
  total_supply := .vNone
  buys := .vNone
  sells := .vNone
  sniper_count := .vNone
  lock_info := .vNone

/-- `FilterCriteria` (src/gmgn_api.py lines 208-221).  `None` thresholds are
`none`. -/
structure FilterCriteria where
  min_volume : Option ℚ := none
  max_volume : Option ℚ := none
  min_market_cap : Option ℚ := none
  max_market_cap : Option ℚ := none
  min_liquidity : Option ℚ := none
  max_liquidity : Option ℚ := none
  min_holder_count : Option ℤ := none
  min_price_change : Option ℚ := none
  max_price_change : Option ℚ := none
  min_age_days : Option ℚ := none
  exclude_honeypots : Bool := true

/-- One early-return guard of `FilterCriteria.matches` for a `min_*`
threshold: Python `if self.min_f and value < self.min_f: return False`.
The truthiness test means a threshold equal to 0 never fires. -/
def failMin (o : Option ℚ) (x : ℚ) : Bool :=
  match o with
  | none => false
  | some m => decide (m ≠ 0) && decide (x < m)

/-- One early-return guard of `FilterCriteria.matches` for a `max_*`
threshold: Python `if self.max_f and value > self.max_f: return False`. -/
def failMax (o : Option ℚ) (x : ℚ) : Bool :=
  match o with
  | none => false
  | some m => decide (m ≠ 0) && decide (m < x)

/-- `failMin` for the integer threshold `min_holder_count`. -/
def failMinInt (o : Option ℤ) (x : ℤ) : Bool :=
  match o with
  | none => false
  | some m => decide (m ≠ 0) && decide (x < m)

/-- `FilterCriteria.matches` (src/gmgn_api.py lines 223-250): the sequence of
truthiness-guarded early returns; `min_age_days` is a documented no-op
(`pass`) in the source. -/
def FilterCriteria.matches (c : FilterCriteria) (t : Token) : Bool :=
  bif c.exclude_honeypots && decide (t.is_honeypot ≠ 0) then false
  else bif failMin c.min_volume t.volume then false
  else bif failMax c.max_volume t.volume then false
  else bif failMin c.min_market_cap t.market_cap then false
  else bif failMax c.max_market_cap t.market_cap then false
  else bif failMin c.min_liquidity t.liquidity then false
  else bif failMax c.max_liquidity t.liquidity then false
  else bif failMinInt c.min_holder_count t.holder_count then false
  else bif failMin c.min_price_change t.price_change_percent then false
  else bif failMax c.max_price_change t.price_change_percent then false
  else true

/-- A token filter object: anything with a `filter` method from lists of
tokens to lists of tokens (the `BaseTokenFilter` interface,
src/gmgn_api.py lines 470-475). -/
structure BaseTokenFilter where
  filter : List Token → List Token

/-- `CriteriaFilter` (src/gmgn_api.py lines 478-485): keeps the tokens that
match the criteria, via a list comprehension. -/
def CriteriaFilter (criteria : FilterCriteria) : BaseTokenFilter where
  filter tokens := tokens.filter (fun token => criteria.matches token)

/-- Python list slice `l[:n]` for an arbitrary (possibly negative) `int` n:
nonnegative `n` keeps the first `n` elements; negative `n` drops the last
`-n` elements (clamped at the empty list). -/
def pySliceUpTo (l : List Token) (n : ℤ) : List Token :=
  if 0 ≤ n then l.take n.toNat
  else l.take (l.length - (-n).toNat)

/-- `TopNFilter` (src/gmgn_api.py lines 488-495): `tokens[:self.n]`. -/
def TopNFilter (n : ℤ) : BaseTokenFilter where
  filter tokens := pySliceUpTo tokens n

/-- `CompositeFilter` (src/gmgn_api.py lines 498-508): applies each
component filter in turn to the running result. -/
def CompositeFilter (filters : List BaseTokenFilter) : BaseTokenFilter where
  filter tokens := filters.foldl (fun result f => f.filter result) tokens

/-- The `Chain` enum (src/gmgn_api.py lines 42-48). -/
inductive Chain where
  | ethereum | binance_smart_chain | base | solana | tron
deriving DecidableEq

/-- The `TimePeriod` enum (src/gmgn_api.py lines 51-57). -/
inductive TimePeriod where
  | one_minute | five_minutes | one_hour | six_hours | twenty_four_hours
deriving DecidableEq

/-- The `SortCriteria` enum (src/gmgn_api.py lines 60-73). -/
inductive SortCriteria where
  | open_timestamp | liquidity | marketcap | bluechip_owner_percentage
  | holder_count | smartmoney | swaps | volume | price
  | change1m | change5m | change1h
deriving DecidableEq

/-- The `SortDirection` enum (src/gmgn_api.py lines 76-79). -/
inductive SortDirection where
  | ascending | descending
deriving DecidableEq

/-- `.value` of a `Chain` member. -/
def Chain.value : Chain → String
  | .ethereum => "eth"
  | .binance_smart_chain => "bsc"
  | .base => "base"
  | .solana => "sol"
  | .tron => "tron"

/-- `.value` of a `TimePeriod` member. -/
def TimePeriod.value : TimePeriod → String
  | .one_minute => "1m"
  | .five_minutes => "5m"
  | .one_hour => "1h"
  | .six_hours => "6h"
  | .twenty_four_hours => "24h"

/-- `.value` of a `SortCriteria` member. -/
def SortCriteria.value : SortCriteria → String
  | .open_timestamp => "open_timestamp"
  | .liquidity => "liquidity"
  | .marketcap => "marketcap"
  | .bluechip_owner_percentage => "bluechip_owner_percentage"
  | .holder_count => "holder_count"
  | .smartmoney => "smartmoney"
  | .swaps => "swaps"
  | .volume => "volume"
  | .price => "price"
  | .change1m => "change1m"
  | .change5m => "change5m"
  | .change1h => "change1h"

/-- `.value` of a `SortDirection` member. -/
def SortDirection.value : SortDirection → String
  | .ascending => "asc"
  | .descending => "desc"

/-- `QueryParameters` (src/gmgn_api.py lines 180-189). -/
structure QueryParameters where
  chain : Chain
  time_period : TimePeriod
  criteria : SortCriteria
  direction : SortDirection := .descending
  include_not_honeypot : Bool := true
  include_verified : Bool := false
  include_renounced : Bool := false

/-- `QueryParameters.to_url_params` (src/gmgn_api.py lines 191-205): starts
from the orderby/direction pairs and appends one `filters[]` pair per
enabled flag, in source order. -/
def QueryParameters.to_url_params (p : QueryParameters) : List (String × String) :=
  let params := [("orderby", p.criteria.value), ("direction", p.direction.value)]
  let params := if p.include_not_honeypot then params ++ [("filters[]", "not_honeypot")] else params
  let params := if p.include_verified then params ++ [("filters[]", "verified")] else params
  let params := if p.include_renounced then params ++ [("filters[]", "renounced")] else params
  params

/-- One item of the `rank` list, as processed by the parse loop
(src/gmgn_api.py lines 448-455): non-dict items are skipped by the
`isinstance` test, dict items are skipped when `Token.from_dict` raises. -/
def tokenOfItem (item : PyVal) : Option Token :=
  match item with
  | .vDict kvs => Token.from_dict kvs
  | _ => none

/-- `TokenDataParser.parse_response` (src/gmgn_api.py lines 419-463).
Structure errors raise `GMGNParsingError` (modelled by `Except.error` with
the message); individual malformed rank items are skipped. -/
def TokenDataParser.parse_response (response : PyVal) : Except String (List Token) :=
  match response with
  | .vDict kvs =>
    match kvs.lookup "data" with
    | none => .error "No data key in response"
    | some data =>
      match data with
      | .vDict dkvs =>
        match dkvs.lookup "rank" with
        | none => .error "Invalid data structure"
        | some rank =>
          match rank with
          | .vList items => .ok (items.filterMap tokenOfItem)
          | _ => .error "Rank data is not a list"
      | _ => .error "Invalid data structure"
  | _ => .error "Expected dict"

/-- A Python exception value inside `make_request`: either a `GMGNAPIError`
(src/gmgn_api.py lines 91-96, carrying status code and message) or any
other exception, identified by its string rendering. -/
inductive PyError where
  | apiError (status_code : ℤ) (message : String)
  | generic (message : String)
deriving DecidableEq

/-- What one call of `self.session.get(url, params, headers)` produced:
either an HTTP response (status code, body text, and the parsed JSON body
when the body is valid JSON) or a raised exception. -/
inductive AttemptResult where
  | response (status_code : ℤ) (text : String) (json : Option PyVal)
  | exn (message : String)

/-- The body of one `try` iteration of `GMGNClient.make_request`
(src/gmgn_api.py lines 383-393): 200 returns the parsed JSON (a failing
`response.json()` raises), 403/429/503 raise a `GMGNAPIError` with the
fixed Cloudflare message, every other status raises a `GMGNAPIError`
carrying the response text. -/
def processAttempt : AttemptResult → Except PyError PyVal
  | .exn m => .error (.generic m)
  | .response status text json =>
    if status = 200 then
      match json with
      | some j => .ok j
      | none => .error (.generic "JSON decode error")
    else if status = 403 ∨ status = 429 ∨ status = 503 then
      .error (.apiError status "Cloudflare block detected")
    else
      .error (.apiError status text)

/-- The exception raised after the retry loop exhausts all attempts
(src/gmgn_api.py lines 403-406): a `GMGNAPIError` is re-raised as is; any
other last exception is wrapped in `GMGNAPIError(500, ...)`; with zero
retries the last exception is Python `None` and is wrapped the same way. -/
def finalRaise : Option PyError → PyError
  | some (.apiError c m) => .apiError c m
  | some (.generic m) => .apiError 500 ("Request failed: " ++ m)
  | none => .apiError 500 "Request failed: None"

/-- Observable trace of one `make_request` call: its outcome, how many
attempts (`session.get` iterations) were entered, and how many
`refresh_session()` calls were made. -/
structure RequestTrace where
  result : Except PyError PyVal
  attemptsMade : ℕ
  refreshes : ℕ

/-- The retry loop of `GMGNClient.make_request` (src/gmgn_api.py lines
380-406) over the list of remaining attempt outcomes.  On failure the
session is refreshed only when `attempt < max_retries - 1`, i.e. when more
attempts remain. -/
def requestLoop : List AttemptResult → Option PyError → ℕ → ℕ → RequestTrace
  | [], last, made, refreshed =>
    { result := .error (finalRaise last), attemptsMade := made, refreshes := refreshed }
  | a :: rest, _, made, refreshed =>
    match processAttempt a with
    | .ok v => { result := .ok v, attemptsMade := made + 1, refreshes := refreshed }
    | .error e =>
      -- `attempt < max_retries - 1` holds exactly when further attempts remain
      if rest.length = 0 then requestLoop rest (some e) (made + 1) refreshed
      else requestLoop rest (some e) (made + 1) (refreshed + 1)

/-- `GMGNClient.make_request` (src/gmgn_api.py lines 366-406) with
`config.max_retries` retries.  The network is an oracle giving the outcome
of the i-th attempt; session/identity state between refreshes is absorbed
into that oracle. -/
def GMGNClient.make_request (max_retries : ℕ) (attempts : ℕ → AttemptResult) : RequestTrace :=
  requestLoop ((List.range max_retries).map attempts) none 0 0

/-- `GMGNTokenAPI.get_top_gainers` (src/gmgn_api.py lines 661-674).  The
method selects a sort criteria, builds the query parameters, and then
evaluates `TopNFilter(limit)` where the name `limit` is not bound anywhere
in its scope (it is not a parameter of this method and no global of that
name exists), so Python raises a `NameError` at that line; the request
(the `fetch` oracle, standing for `get_tokens_with_filter`) is never
invoked. -/
def GMGNTokenAPI.get_top_gainers (chain : Chain) (time_period : TimePeriod)
    (_fetch : QueryParameters → Except PyError (List Token)) : Except PyError (List Token) :=
  let criteria :=
    match time_period with
    | .one_minute => SortCriteria.change1m
    | .five_minutes => SortCriteria.change5m
    | .one_hour => SortCriteria.change1h
    | _ => SortCriteria.change1h
  let _params : QueryParameters := { chain := chain, time_period := time_period, criteria := criteria }
  .error (.generic "NameError: name limit is not defined")

/-- Python `key in d and d[key] is not None`: the value under `key` when it
is present and not None. -/
def lookupNonNone (d : List (String × PyVal)) (key : String) : Option PyVal :=
  match d.lookup key with
  | some .vNone => none
  | some v => some v
  | none => none

/-- `GMGNTokenAPI._extract_risk_score` (src/gmgn_api.py lines 769-809).
The surrounding `try` catches the `ValueError`/`TypeError` a failing
`float()` raises and returns 0.5; those are the `none` fallbacks here. -/
def GMGNTokenAPI.extract_risk_score (rugcheck_result : List (String × PyVal)) : ℚ :=
  match lookupNonNone rugcheck_result "score_normalised" with
  | some v =>
    match pyFloat v with
    | some score => max 0 (min 1 (1 - score))
    | none => 1 / 2
  | none =>
  match lookupNonNone rugcheck_result "score" with
  | some v =>
    match pyFloat v with
    | some score => max 0 (min 1 (1 - score / 100))
    | none => 1 / 2
  | none =>
  bif pyTruthy (dictGet rugcheck_result "rugged" (.vBool false)) then 1
  else
  match rugcheck_result.lookup "risks" with
  | some (.vList risks) => min 1 ((risks.length : ℚ) / 10)
  | _ => 1 / 2

/-! ### Stricter-threshold relations for the monotonicity claim -/

/-- A `min_*` threshold made stricter exactly as the spec claim words it:
set where it was `None`, or raised. -/
def StricterMinSpec (o o2 : Option ℚ) : Prop :=
  (o = none ∧ ∃ x, o2 = some x) ∨ (∃ a b, o = some a ∧ o2 = some b ∧ a < b)

/-- A `max_*` threshold made stricter exactly as the spec claim words it:
set where it was `None`, or lowered. -/
def StricterMaxSpec (o o2 : Option ℚ) : Prop :=
  (o = none ∧ ∃ x, o2 = some x) ∨ (∃ a b, o = some a ∧ o2 = some b ∧ b < a)

/-- `StricterMinSpec` for the integer threshold. -/
def StricterMinIntSpec (o o2 : Option ℤ) : Prop :=
  (o = none ∧ ∃ x, o2 = some x) ∨ (∃ a b, o = some a ∧ o2 = some b ∧ a < b)

/-- A raised `min_*` threshold whose new value is nonzero (a zero threshold
is disabled by the truthiness guard in `matches`). -/
def StricterMinOk (o o2 : Option ℚ) : Prop :=
  (o = none ∧ ∃ x, o2 = some x) ∨ (∃ a b, o = some a ∧ o2 = some b ∧ a < b ∧ b ≠ 0)

/-- A lowered `max_*` threshold whose new value is nonzero. -/
def StricterMaxOk (o o2 : Option ℚ) : Prop :=
  (o = none ∧ ∃ x, o2 = some x) ∨ (∃ a b, o = some a ∧ o2 = some b ∧ b < a ∧ b ≠ 0)

/-- `StricterMinOk` for the integer threshold. -/
def StricterMinIntOk (o o2 : Option ℤ) : Prop :=
  (o = none ∧ ∃ x, o2 = some x) ∨ (∃ a b, o = some a ∧ o2 = some b ∧ a < b ∧ b ≠ 0)

/-- `c2` is `c` with exactly one additional or stricter threshold, in the
words of the spec claim (no restriction on the new value). -/
def OneStricterSpec (c c2 : FilterCriteria) : Prop :=
  (∃ v, c2 = { c with min_volume := v } ∧ StricterMinSpec c.min_volume v) ∨
  (∃ v, c2 = { c with max_volume := v } ∧ StricterMaxSpec c.max_volume v) ∨
  (∃ v, c2 = { c with min_market_cap := v } ∧ StricterMinSpec c.min_market_cap v) ∨
  (∃ v, c2 = { c with max_market_cap := v } ∧ StricterMaxSpec c.max_market_cap v) ∨
  (∃ v, c2 = { c with min_liquidity := v } ∧ StricterMinSpec c.min_liquidity v) ∨
  (∃ v, c2 = { c with max_liquidity := v } ∧ StricterMaxSpec c.max_liquidity v) ∨
  (∃ v, c2 = { c with min_holder_count := v } ∧ StricterMinIntSpec c.min_holder_count v) ∨
  (∃ v, c2 = { c with min_price_change := v } ∧ StricterMinSpec c.min_price_change v) ∨
  (∃ v, c2 = { c with max_price_change := v } ∧ StricterMaxSpec c.max_price_change v) ∨
  (∃ v, c2 = { c with min_age_days := v } ∧ StricterMinSpec c.min_age_days v) ∨
  (c.exclude_honeypots = false ∧ c2 = { c with exclude_honeypots := true })

/-- `c2` is `c` with exactly one additional or stricter threshold, where a
raised `min_*` or lowered `max_*` value must be nonzero (the amendment the
truthiness guards force; `min_age_days` is a no-op in `matches`, so it
needs no such restriction). -/
def OneStricterOk (c c2 : FilterCriteria) : Prop :=
  (∃ v, c2 = { c with min_volume := v } ∧ StricterMinOk c.min_volume v) ∨
  (∃ v, c2 = { c with max_volume := v } ∧ StricterMaxOk c.max_volume v) ∨
  (∃ v, c2 = { c with min_market_cap := v } ∧ StricterMinOk c.min_market_cap v) ∨
  (∃ v, c2 = { c with max_market_cap := v } ∧ StricterMaxOk c.max_market_cap v) ∨
  (∃ v, c2 = { c with min_liquidity := v } ∧ StricterMinOk c.min_liquidity v) ∨
  (∃ v, c2 = { c with max_liquidity := v } ∧ StricterMaxOk c.max_liquidity v) ∨
  (∃ v, c2 = { c with min_holder_count := v } ∧ StricterMinIntOk c.min_holder_count v) ∨
  (∃ v, c2 = { c with min_price_change := v } ∧ StricterMinOk c.min_price_change v) ∨
  (∃ v, c2 = { c with max_price_change := v } ∧ StricterMaxOk c.max_price_change v) ∨
  (∃ v, c2 = { c with min_age_days := v } ∧ StricterMinSpec c.min_age_days v) ∨
  (c.exclude_honeypots = false ∧ c2 = { c with exclude_honeypots := true })

lemma cond_false_left (g r : Bool) : (bif g then false else r) = (!g && r) := by
  cases g <;> rfl

/-- `matches` as the conjunction of its ten guards. -/
lemma matches_true_iff (c : FilterCriteria) (t : Token) :
    c.matches t = true ↔
      (c.exclude_honeypots && decide (t.is_honeypot ≠ 0)) = false ∧
      failMin c.min_volume t.volume = false ∧
      failMax c.max_volume t.volume = false ∧
      failMin c.min_market_cap t.market_cap = false ∧
      failMax c.max_market_cap t.market_cap = false ∧
      failMin c.min_liquidity t.liquidity = false ∧
      failMax c.max_liquidity t.liquidity = false ∧
      failMinInt c.min_holder_count t.holder_count = false ∧
      failMin c.min_price_change t.price_change_percent = false ∧
      failMax c.max_price_change t.price_change_percent = false := by
  unfold FilterCriteria.matches
  simp only [cond_false_left, Bool.and_eq_true, Bool.not_eq_true', and_true]

lemma failMin_mono {o o2 : Option ℚ} {x : ℚ} (h : StricterMinOk o o2)
    (h2 : failMin o2 x = false) : failMin o x = false := by
  rcases h with ⟨ho, -⟩ | ⟨a, b, ha, hb, hab, hb0⟩
  · rw [ho]; rfl
  · subst ha; subst hb
    simp only [failMin, Bool.and_eq_false_iff, decide_eq_false_iff_not, not_not] at h2 ⊢
    rcases h2 with h2 | h2
    · exact absurd h2 hb0
    · right
      intro hx
      exact h2 (lt_trans hx hab)

lemma failMax_mono {o o2 : Option ℚ} {x : ℚ} (h : StricterMaxOk o o2)
    (h2 : failMax o2 x = false) : failMax o x = false := by
  rcases h with ⟨ho, -⟩ | ⟨a, b, ha, hb, hab, hb0⟩
  · rw [ho]; rfl
  · subst ha; subst hb
    simp only [failMax, Bool.and_eq_false_iff, decide_eq_false_iff_not, not_not] at h2 ⊢
    rcases h2 with h2 | h2
    · exact absurd h2 hb0
    · right
      intro hx
      exact h2 (lt_trans hab hx)

lemma failMinInt_mono {o o2 : Option ℤ} {x : ℤ} (h : StricterMinIntOk o o2)
    (h2 : failMinInt o2 x = false) : failMinInt o x = false := by
  rcases h with ⟨ho, -⟩ | ⟨a, b, ha, hb, hab, hb0⟩
  · rw [ho]; rfl
  · subst ha; subst hb
    simp only [failMinInt, Bool.and_eq_false_iff, decide_eq_false_iff_not, not_not] at h2 ⊢
    rcases h2 with h2 | h2
    · exact absurd h2 hb0
    · right
      intro hx
      exact h2 (lt_trans hx hab)

/-- Pointwise monotonicity of `matches` along `OneStricterOk`. -/
lemma matches_mono {c c2 : FilterCriteria} (h : OneStricterOk c c2) (t : Token)
    (hm : c2.matches t = true) : c.matches t = true := by
  rw [matches_true_iff] at hm ⊢
  obtain ⟨h0, h1, h2, h3, h4, h5, h6, h7, h8, h9⟩ := hm
  rcases h with ⟨v, he, hs⟩ | ⟨v, he, hs⟩ | ⟨v, he, hs⟩ | ⟨v, he, hs⟩ | ⟨v, he, hs⟩ |
    ⟨v, he, hs⟩ | ⟨v, he, hs⟩ | ⟨v, he, hs⟩ | ⟨v, he, hs⟩ | ⟨v, he, hs⟩ | ⟨heh, he⟩
  · subst he; exact ⟨h0, failMin_mono hs h1, h2, h3, h4, h5, h6, h7, h8, h9⟩
  · subst he; exact ⟨h0, h1, failMax_mono hs h2, h3, h4, h5, h6, h7, h8, h9⟩
  · subst he; exact ⟨h0, h1, h2, failMin_mono hs h3, h4, h5, h6, h7, h8, h9⟩
  · subst he; exact ⟨h0, h1, h2, h3, failMax_mono hs h4, h5, h6, h7, h8, h9⟩
  · subst he; exact ⟨h0, h1, h2, h3, h4, failMin_mono hs h5, h6, h7, h8, h9⟩
  · subst he; exact ⟨h0, h1, h2, h3, h4, h5, failMax_mono hs h6, h7, h8, h9⟩
  · subst he; exact ⟨h0, h1, h2, h3, h4, h5, h6, failMinInt_mono hs h7, h8, h9⟩
  · subst he; exact ⟨h0, h1, h2, h3, h4, h5, h6, h7, failMin_mono hs h8, h9⟩
  · subst he; exact ⟨h0, h1, h2, h3, h4, h5, h6, h7, h8, failMax_mono hs h9⟩
  · subst he; exact ⟨h0, h1, h2, h3, h4, h5, h6, h7, h8, h9⟩
  · subst he
    refine ⟨?_, h1, h2, h3, h4, h5, h6, h7, h8, h9⟩
    rw [heh]
    rfl

/-! ### Concrete tokens and criteria used in counterexamples and witnesses -/

def tokenVol200 : Token := { tokenDefault with volume := 200 }

def tokenVol150 : Token := { tokenDefault with volume := 150 }

def critMax100 : FilterCriteria := { max_volume := some 100, exclude_honeypots := false }

def critMax0 : FilterCriteria := { max_volume := some 0, exclude_honeypots := false }

def critMin50 : FilterCriteria := { min_volume := some 50, exclude_honeypots := false }

def critMin100 : FilterCriteria := { min_volume := some 100, exclude_honeypots := false }

/-- C1 (counterexample): the claim fails as stated.  Lowering `max_volume`
from 100 to 0 is a stricter threshold in the claim's sense, yet a token
with volume 200 is kept by the stricter criteria (the truthiness guard
`if self.max_volume` treats the 0 threshold as unset) and rejected by the
looser one, so the stricter result set is not contained in the looser
one. -/
theorem CriteriaFilter_monotone_counterexample :
    OneStricterSpec critMax100 critMax0 ∧
    tokenVol200 ∈ (CriteriaFilter critMax0).filter [tokenVol200] ∧
    tokenVol200 ∉ (CriteriaFilter critMax100).filter [tokenVol200] := by
  refine ⟨?_, ?_, ?_⟩
  · refine Or.inr (Or.inl ⟨some 0, rfl, Or.inr ⟨100, 0, rfl, rfl, by norm_num⟩⟩)
  · exact List.mem_singleton.mpr rfl
  · show tokenVol200 ∉ ([] : List Token)
    exact List.not_mem_nil _

/-- C1 (amended): the filter predicate is a monotone conjunction provided a
raised `min_*` or lowered `max_*` threshold has a nonzero new value (the
code's truthiness test `if self.min_x and ...` disables a threshold equal
to 0): every token kept by the stricter `CriteriaFilter` is kept by the
looser one. -/
theorem CriteriaFilter_monotone (c c2 : FilterCriteria) (h : OneStricterOk c c2)
    (tokens : List Token) (t : Token)
    (ht : t ∈ (CriteriaFilter c2).filter tokens) :
    t ∈ (CriteriaFilter c).filter tokens := by
  have hmem := List.mem_filter.mp ht
  exact List.mem_filter.mpr ⟨hmem.1, matches_mono h t hmem.2⟩

/-- C1 (witness): the amended monotonicity theorem applied at `min_volume`
raised from 50 to 100 on a token with volume 150. -/
theorem CriteriaFilter_monotone_witness :
    tokenVol150 ∈ (CriteriaFilter critMin50).filter [tokenVol150] :=
  CriteriaFilter_monotone critMin50 critMin100
    (Or.inl ⟨some 100, rfl, Or.inr ⟨50, 100, rfl, rfl, by norm_num, by norm_num⟩⟩)
    [tokenVol150] tokenVol150 (List.mem_singleton.mpr rfl)

/-- C2 (counterexample): with a negative n — a value Python accepts —
`TopNFilter(n).filter` still returns a prefix but its length exceeds n, so
the claim's length bound fails for every n as stated. -/
theorem TopNFilter_negative_counterexample :
    (TopNFilter (-1)).filter [tokenDefault, tokenDefault] = [tokenDefault] ∧
    ¬ ((((TopNFilter (-1)).filter [tokenDefault, tokenDefault]).length : ℤ) ≤ -1) := by
  refine ⟨rfl, ?_⟩
  show ¬ (((1 : ℕ) : ℤ) ≤ -1)
  decide

/-- C2 (amended): `TopNFilter(n).filter(tokens)` always returns a prefix of
the input (`tokens.take k` for some k), and when n is nonnegative its
length never exceeds n. -/
theorem TopNFilter_slice (n : ℤ) (tokens : List Token) :
    (∃ k : ℕ, (TopNFilter n).filter tokens = tokens.take k) ∧
    (0 ≤ n → (((TopNFilter n).filter tokens).length : ℤ) ≤ n) := by
  constructor
  · show ∃ k : ℕ, pySliceUpTo tokens n = tokens.take k
    unfold pySliceUpTo
    split
    · exact ⟨n.toNat, rfl⟩
    · exact ⟨_, rfl⟩
  · intro hn
    show ((pySliceUpTo tokens n).length : ℤ) ≤ n
    unfold pySliceUpTo
    rw [if_pos hn]
    have h1 : (tokens.take n.toNat).length ≤ n.toNat := by
      simp [List.length_take]
    calc ((tokens.take n.toNat).length : ℤ) ≤ (n.toNat : ℤ) := by exact_mod_cast h1
      _ = n := Int.toNat_of_nonneg hn

/-- C2 (witness): the amended slice theorem at n = 1 on a two-token list,
with the nonnegativity hypothesis discharged. -/
theorem TopNFilter_slice_witness :
    (∃ k : ℕ, (TopNFilter 1).filter [tokenDefault, tokenVol200] = [tokenDefault, tokenVol200].take k) ∧
    (((TopNFilter 1).filter [tokenDefault, tokenVol200]).length : ℤ) ≤ 1 :=
  ⟨(TopNFilter_slice 1 [tokenDefault, tokenVol200]).1,
   (TopNFilter_slice 1 [tokenDefault, tokenVol200]).2 (by norm_num)⟩

/-- C10: `CompositeFilter` applies its component filters sequentially
left to right — the empty composite is the identity, a cons first applies
the head filter, and an append runs the two composites in sequence. -/
theorem CompositeFilter_sequential (f : BaseTokenFilter) (fs gs : List BaseTokenFilter)
    (tokens : List Token) :
    (CompositeFilter []).filter tokens = tokens ∧
    (CompositeFilter (f :: fs)).filter tokens = (CompositeFilter fs).filter (f.filter tokens) ∧
    (CompositeFilter (fs ++ gs)).filter tokens =
      (CompositeFilter gs).filter ((CompositeFilter fs).filter tokens) := by
  refine ⟨rfl, rfl, ?_⟩
  show (fs ++ gs).foldl (fun result fi => fi.filter result) tokens =
    gs.foldl (fun result fi => fi.filter result) (fs.foldl (fun result fi => fi.filter result) tokens)
  rw [List.foldl_append]

/-- C7: `to_url_params` is the ordered list starting with the orderby and
direction pairs, followed by the three optional filter entries in fixed
order, each present exactly when its flag is set, and nothing else. -/
theorem to_url_params_ordered (p : QueryParameters) :
    p.to_url_params =
      ("orderby", p.criteria.value) :: ("direction", p.direction.value) ::
        ((if p.include_not_honeypot then [("filters[]", "not_honeypot")] else []) ++
         (if p.include_verified then [("filters[]", "verified")] else []) ++
         (if p.include_renounced then [("filters[]", "renounced")] else [])) ∧
    (("filters[]", "not_honeypot") ∈ p.to_url_params ↔ p.include_not_honeypot = true) ∧
    (("filters[]", "verified") ∈ p.to_url_params ↔ p.include_verified = true) ∧
    (("filters[]", "renounced") ∈ p.to_url_params ↔ p.include_renounced = true) := by
  obtain ⟨c, tp, cr, d, b1, b2, b3⟩ := p
  cases b1 <;> cases b2 <;> cases b3 <;>
    simp [QueryParameters.to_url_params]

/-- C8: `get_top_gainers` evaluates the unbound name `limit` while building
its `TopNFilter`, so for every chain, time period and fetch oracle it
raises a NameError without ever invoking the request and never returns a
token list. -/
theorem get_top_gainers_unbound_limit (chain : Chain) (time_period : TimePeriod)
    (fetch : QueryParameters → Except PyError (List Token)) :
    GMGNTokenAPI.get_top_gainers chain time_period fetch =
      .error (.generic "NameError: name limit is not defined") := rfl

/-- C9: every branch of `_extract_risk_score` yields a value between 0 and
1 inclusive. -/
theorem extract_risk_score_range (d : List (String × PyVal)) :
    0 ≤ GMGNTokenAPI.extract_risk_score d ∧ GMGNTokenAPI.extract_risk_score d ≤ 1 := by
  have hhalf : (0 : ℚ) ≤ 1 / 2 ∧ (1 : ℚ) / 2 ≤ 1 := by norm_num
  have hclamp : ∀ x : ℚ, 0 ≤ max 0 (min 1 x) ∧ max 0 (min 1 x) ≤ 1 :=
    fun x => ⟨le_max_left 0 _, max_le (by norm_num) (min_le_left 1 x)⟩
  unfold GMGNTokenAPI.extract_risk_score
  cases hsn : lookupNonNone d "score_normalised" with
  | some v =>
    cases hf : pyFloat v with
    | some score => simp only [hf]; exact hclamp (1 - score)
    | none => simp only [hf]; exact hhalf
  | none =>
    cases hs : lookupNonNone d "score" with
    | some v =>
      cases hf : pyFloat v with
      | some score => simp only [hf]; exact hclamp (1 - score / 100)
      | none => simp only [hf]; exact hhalf
    | none =>
      cases hr : pyTruthy (dictGet d "rugged" (.vBool false)) with
      | true => norm_num
      | false =>
        cases hk : d.lookup "risks" with
        | some w =>
          cases w
          case vList risks =>
            exact ⟨le_min (by norm_num) (by positivity), min_le_left _ _⟩
          all_goals simpa using hhalf
        | none => simpa using hhalf

/-- C3: when the response is a dict whose `data` entry is a dict with a
`rank` list, `parse_response` returns normally even when one item of the
list is malformed (`tokenOfItem` yields no token for it): the malformed
item is skipped and the well-formed items before and after it are all
parsed, in order. -/
theorem parse_response_skips_malformed
    (kvs dkvs : List (String × PyVal)) (pre post : List PyVal) (bad : PyVal)
    (hdata : kvs.lookup "data" = some (.vDict dkvs))
    (hrank : dkvs.lookup "rank" = some (.vList (pre ++ bad :: post)))
    (hbad : tokenOfItem bad = none) :
    TokenDataParser.parse_response (.vDict kvs) =
      .ok (pre.filterMap tokenOfItem ++ post.filterMap tokenOfItem) := by
  simp only [TokenDataParser.parse_response, hdata, hrank, List.filterMap_append,
    List.filterMap_cons, hbad]

def exRankPre : List PyVal := [.vDict [("symbol", .vStr "GOOD1"), ("volume", .vFloat 7)]]

def exRankBad : PyVal := .vDict [("price", .vNone)]

def exRankPost : List PyVal := [.vDict [("symbol", .vStr "GOOD2")]]

/-- C3 (witness): the skip theorem applied to a concrete response holding a
well-formed item, a malformed one (its `price` is None, so `float()`
raises inside `Token.from_dict`), and a further well-formed item; both
well-formed items come back as tokens. -/
theorem parse_response_skips_malformed_witness :
    TokenDataParser.parse_response
        (.vDict [("code", .vInt 0),
                 ("data", .vDict [("rank", .vList (exRankPre ++ exRankBad :: exRankPost))])]) =
      .ok [{ tokenDefault with symbol := .vStr "GOOD1", volume := 7 },
           { tokenDefault with symbol := .vStr "GOOD2" }] :=
  parse_response_skips_malformed _ _ exRankPre exRankPost exRankBad rfl rfl rfl

/-- C5 (counterexample): for status 403 the raised `GMGNAPIError` carries
the fixed Cloudflare message, not the response body, so the claim's
"response text as its message, including 403/429/503" fails. -/
theorem make_request_cloudflare_message_counterexample :
    processAttempt (.response 403 "body text" none) =
      .error (.apiError 403 "Cloudflare block detected") ∧
    "Cloudflare block detected" ≠ "body text" :=
  ⟨rfl, by decide⟩

/-- C5 (amended): every non-200 response raises a `GMGNAPIError` carrying
the status code; its message is the response text for every status other
than 403, 429 and 503, and the fixed string "Cloudflare block detected"
for those three. -/
theorem make_request_api_error_surfacing (status : ℤ) (text : String) (json : Option PyVal)
    (h : status ≠ 200) :
    ∃ m, processAttempt (.response status text json) = .error (.apiError status m) ∧
      (¬ (status = 403 ∨ status = 429 ∨ status = 503) → m = text) ∧
      ((status = 403 ∨ status = 429 ∨ status = 503) → m = "Cloudflare block detected") := by
  by_cases hc : status = 403 ∨ status = 429 ∨ status = 503
  · refine ⟨"Cloudflare block detected", ?_, fun hn => absurd hc hn, fun _ => rfl⟩
    simp only [processAttempt, if_neg h, if_pos hc]
  · refine ⟨text, ?_, fun _ => rfl, fun hcc => absurd hcc hc⟩
    simp only [processAttempt, if_neg h, if_neg hc]

/-- C5 (witness): the amended theorem at status 404, whose message is the
response body. -/
theorem make_request_api_error_surfacing_witness :
    ∃ m, processAttempt (.response 404 "not found" none) = .error (.apiError 404 m) ∧
      (¬ ((404 : ℤ) = 403 ∨ (404 : ℤ) = 429 ∨ (404 : ℤ) = 503) → m = "not found") ∧
      (((404 : ℤ) = 403 ∨ (404 : ℤ) = 429 ∨ (404 : ℤ) = 503) → m = "Cloudflare block detected") :=
  make_request_api_error_surfacing 404 "not found" none (by decide)

/-- Loop invariants of `requestLoop`: the attempt counter grows by at most
the number of remaining attempts and by at least one when any remain, and
the refresh counter is one behind the number of attempts consumed. -/
lemma requestLoop_bounds (l : List AttemptResult) :
    ∀ (last : Option PyError) (made r : ℕ),
    made ≤ (requestLoop l last made r).attemptsMade ∧
    (0 < l.length → made < (requestLoop l last made r).attemptsMade) ∧
    (requestLoop l last made r).attemptsMade ≤ made + l.length ∧
    ((requestLoop l last made r).attemptsMade = made → (requestLoop l last made r).refreshes = r) ∧
    (made < (requestLoop l last made r).attemptsMade →
      (requestLoop l last made r).refreshes + made + 1 = r + (requestLoop l last made r).attemptsMade) := by
  induction l with
  | nil =>
    intro last made r
    simp [requestLoop]
  | cons a rest ih =>
    intro last made r
    cases hpa : processAttempt a with
    | ok v =>
      simp only [requestLoop, hpa, List.length_cons]
      refine ⟨?_, ?_, ?_, ?_, ?_⟩ <;> omega
    | error e =>
      by_cases hr : rest.length = 0
      · have hrest : rest = [] := List.length_eq_zero.mp hr
        subst hrest
        simp [requestLoop, hpa]
        omega
      · obtain ⟨hA, hA2, hB, hC, hD⟩ := ih (some e) (made + 1) (r + 1)
        have hlt := hA2 (Nat.pos_of_ne_zero hr)
        have hDD := hD hlt
        simp only [requestLoop, hpa, if_neg hr, List.length_cons]
        refine ⟨?_, ?_, ?_, ?_, ?_⟩ <;> omega

/-- When every attempt fails, the loop consumes all of them, refreshes after
all but the last one, and ends by raising `finalRaise` of the last error. -/
lemma requestLoop_all_fail (l : List AttemptResult) :
    ∀ (a : AttemptResult) (e : PyError) (last : Option PyError) (made r : ℕ),
    (∀ x ∈ l, ∃ e2, processAttempt x = .error e2) →
    processAttempt a = .error e →
    requestLoop (l ++ [a]) last made r =
      { result := .error (finalRaise (some e)), attemptsMade := made + l.length + 1,
        refreshes := r + l.length } := by
  induction l with
  | nil =>
    intro a e last made r _ ha
    simp [requestLoop, ha]
  | cons x l2 ih =>
    intro a e last made r hall ha
    obtain ⟨ex, hex⟩ := hall x (List.mem_cons_self x l2)
    have hrec := ih a e (some ex) (made + 1) (r + 1)
      (fun y hy => hall y (List.mem_cons_of_mem x hy)) ha
    have hne : (l2 ++ [a]).length ≠ 0 := by simp
    simp only [List.cons_append, requestLoop, hex, List.append_eq, if_neg hne]
    rw [hrec]
    simp only [RequestTrace.mk.injEq, List.length_append, List.length_cons, List.length_nil,
      true_and]
    omega

/-- C4 (counterexample): when the last error is not a `GMGNAPIError` (here,
the three `session.get` calls all raise a connection error), the method
does not raise that last error: it raises a new `GMGNAPIError(500, ...)`
wrapping its message. -/
theorem make_request_wraps_last_error_counterexample :
    GMGNClient.make_request 3 (fun _ => .exn "boom") =
      { result := .error (.apiError 500 "Request failed: boom"), attemptsMade := 3,
        refreshes := 2 } ∧
    processAttempt (.exn "boom") = .error (.generic "boom") ∧
    PyError.apiError 500 "Request failed: boom" ≠ PyError.generic "boom" :=
  ⟨rfl, rfl, by decide⟩

/-- C4 (amended): `make_request` attempts the request at most
`config.max_retries` times, calls `refresh_session` exactly once per failed
attempt other than the last attempt made, and after exhausting all retries
raises the last error when it is a `GMGNAPIError` and otherwise a
`GMGNAPIError(500, ...)` wrapping it (the `finalRaise` of the last
error). -/
theorem make_request_retry_discipline (max_retries : ℕ) (attempts : ℕ → AttemptResult)
    (h : 0 < max_retries) :
    (GMGNClient.make_request max_retries attempts).attemptsMade ≤ max_retries ∧
    (GMGNClient.make_request max_retries attempts).refreshes =
      (GMGNClient.make_request max_retries attempts).attemptsMade - 1 ∧
    ((∀ i, i < max_retries → ∃ e, processAttempt (attempts i) = .error e) →
      ∃ e, processAttempt (attempts (max_retries - 1)) = .error e ∧
        GMGNClient.make_request max_retries attempts =
          { result := .error (finalRaise (some e)), attemptsMade := max_retries,
            refreshes := max_retries - 1 }) := by
  obtain ⟨hA, hA2, hB, hC, hD⟩ :=
    requestLoop_bounds ((List.range max_retries).map attempts) none 0 0
  simp only [List.length_map, List.length_range] at hA hA2 hB hC hD
  refine ⟨?_, ?_, ?_⟩
  · simpa [GMGNClient.make_request] using hB
  · show (requestLoop ((List.range max_retries).map attempts) none 0 0).refreshes = _
    by_cases hz : (requestLoop ((List.range max_retries).map attempts) none 0 0).attemptsMade = 0
    · have := hC hz
      show _ = (requestLoop ((List.range max_retries).map attempts) none 0 0).attemptsMade - 1
      omega
    · have := hD (Nat.pos_of_ne_zero hz)
      show _ = (requestLoop ((List.range max_retries).map attempts) none 0 0).attemptsMade - 1
      omega
  · intro hfail
    obtain ⟨n, rfl⟩ : ∃ n, max_retries = n + 1 := ⟨max_retries - 1, by omega⟩
    obtain ⟨e, he⟩ := hfail n (by omega)
    have hall : ∀ x ∈ (List.range n).map attempts, ∃ e2, processAttempt x = .error e2 := by
      intro x hx
      obtain ⟨i, hi, hxi⟩ := List.mem_map.mp hx
      subst hxi
      exact hfail i (by simpa using Nat.lt_succ_of_lt (List.mem_range.mp hi))
    have hrun := requestLoop_all_fail ((List.range n).map attempts) (attempts n) e none 0 0 hall he
    refine ⟨e, by simpa using he, ?_⟩
    show requestLoop ((List.range (n + 1)).map attempts) none 0 0 = _
    rw [List.range_succ, List.map_append, List.map_cons, List.map_nil, hrun]
    simp only [RequestTrace.mk.injEq, List.length_map, List.length_range, true_and]
    omega

def attemptsW : ℕ → AttemptResult :=
  fun i => if i = 0 then .exn "conn reset" else .response 404 "not found" none

/-- C4 (witness): the retry theorem at `max_retries = 2` with a first
attempt that raises and a second that returns 404: both attempts fail, one
refresh happens, and the final raise wraps the 404 `GMGNAPIError`. -/
theorem make_request_retry_discipline_witness :
    ∃ e, processAttempt (attemptsW (2 - 1)) = .error e ∧
      GMGNClient.make_request 2 attemptsW =
        { result := .error (finalRaise (some e)), attemptsMade := 2, refreshes := 2 - 1 } :=
  (make_request_retry_discipline 2 attemptsW (by norm_num)).2.2
    (by
      intro i hi
      interval_cases i
      · exact ⟨.generic "conn reset", rfl⟩
      · exact ⟨.apiError 404 "not found", rfl⟩)

/-- Behaviour of a `float(data.get(key, 0))` slot of `from_dict` that
succeeded: an absent key yields the default 0, a present key yields the
coerced value. -/
lemma coerceQ_cases (data : List (String × PyVal)) (key : String) (q : ℚ)
    (h : pyFloat (dictGet data key (.vInt 0)) = some q) :
    (data.lookup key = none → q = 0) ∧
    (∀ v, data.lookup key = some v → pyFloat v = some q) := by
  constructor
  · intro hk
    simp only [dictGet, hk, pyFloat, Option.some.injEq, Int.cast_zero] at h
    exact h.symm
  · intro v hv
    simp only [dictGet, hv] at h
    exact h

/-- `coerceQ_cases` for an `int(data.get(key, 0))` slot. -/
lemma coerceZ_cases (data : List (String × PyVal)) (key : String) (z : ℤ)
    (h : pyInt (dictGet data key (.vInt 0)) = some z) :
    (data.lookup key = none → z = 0) ∧
    (∀ v, data.lookup key = some v → pyInt v = some z) := by
  constructor
  · intro hk
    simp only [dictGet, hk, pyInt, Option.some.injEq] at h
    exact h.symm
  · intro v hv
    simp only [dictGet, hv] at h
    exact h

/-- An uncoerced `data.get(key, dflt)` slot: absent keys yield the default,
present keys yield the stored value. -/
lemma dictGet_cases (data : List (String × PyVal)) (key : String) (dflt : PyVal) :
    (data.lookup key = none → dictGet data key dflt = dflt) ∧
    (∀ v, data.lookup key = some v → dictGet data key dflt = v) := by
  constructor
  · intro hk
    simp only [dictGet, hk]
  · intro v hv
    simp only [dictGet, hv]

/-- Destructuring of a successful monadic bind on `Option`. -/
lemma bindSome {α β : Type} {g : Option α} {f : α → Option β} {t : β}
    (h : (g >>= f) = some t) : ∃ a, g = some a ∧ f a = some t := by
  rw [Option.bind_eq_bind', Option.bind_eq_some] at h
  exact h

/-- C6 (amended): on every mapping on which `Token.from_dict` succeeds (no
present numeric value fails its coercion), the resulting token takes the
default for every absent key (0 for the coerced numeric fields, `vInt 0`
for the uncoerced `id`, the empty string for chain/address/symbol, None
for the optional fields) and the stored (for numeric fields, coerced)
value for every present key; `lock_info` is read from the `lockInfo`
key. -/
theorem from_dict_field_spec (data : List (String × PyVal)) (t : Token)
    (h : Token.from_dict data = some t) :
    (data.lookup "id" = none → t.id = .vInt 0) ∧
    (∀ v, data.lookup "id" = some v → t.id = v) ∧
    (data.lookup "chain" = none → t.chain = .vStr "") ∧
    (∀ v, data.lookup "chain" = some v → t.chain = v) ∧
    (data.lookup "address" = none → t.address = .vStr "") ∧
    (∀ v, data.lookup "address" = some v → t.address = v) ∧
    (data.lookup "symbol" = none → t.symbol = .vStr "") ∧
    (∀ v, data.lookup "symbol" = some v → t.symbol = v) ∧
    (data.lookup "price" = none → t.price = 0) ∧
    (∀ v, data.lookup "price" = some v → pyFloat v = some t.price) ∧
    (data.lookup "volume" = none → t.volume = 0) ∧
    (∀ v, data.lookup "volume" = some v → pyFloat v = some t.volume) ∧
    (data.lookup "liquidity" = none → t.liquidity = 0) ∧
    (∀ v, data.lookup "liquidity" = some v → pyFloat v = some t.liquidity) ∧
    (data.lookup "market_cap" = none → t.market_cap = 0) ∧
    (∀ v, data.lookup "market_cap" = some v → pyFloat v = some t.market_cap) ∧
    (data.lookup "holder_count" = none → t.holder_count = 0) ∧
    (∀ v, data.lookup "holder_count" = some v → pyInt v = some t.holder_count) ∧
    (data.lookup "swaps" = none → t.swaps = 0) ∧
    (∀ v, data.lookup "swaps" = some v → pyInt v = some t.swaps) ∧
    (data.lookup "price_change_percent" = none → t.price_change_percent = 0) ∧
    (∀ v, data.lookup "price_change_percent" = some v → pyFloat v = some t.price_change_percent) ∧
    (data.lookup "price_change_percent1m" = none → t.price_change_percent1m = 0) ∧
    (∀ v, data.lookup "price_change_percent1m" = some v → pyFloat v = some t.price_change_percent1m) ∧
    (data.lookup "price_change_percent5m" = none → t.price_change_percent5m = 0) ∧
    (∀ v, data.lookup "price_change_percent5m" = some v → pyFloat v = some t.price_change_percent5m) ∧
    (data.lookup "price_change_percent1h" = none → t.price_change_percent1h = 0) ∧
    (∀ v, data.lookup "price_change_percent1h" = some v → pyFloat v = some t.price_change_percent1h) ∧
    (data.lookup "smart_buy_24h" = none → t.smart_buy_24h = 0) ∧
    (∀ v, data.lookup "smart_buy_24h" = some v → pyInt v = some t.smart_buy_24h) ∧
    (data.lookup "smart_sell_24h" = none → t.smart_sell_24h = 0) ∧
    (∀ v, data.lookup "smart_sell_24h" = some v → pyInt v = some t.smart_sell_24h) ∧
    (data.lookup "is_honeypot" = none → t.is_honeypot = 0) ∧
    (∀ v, data.lookup "is_honeypot" = some v → pyInt v = some t.is_honeypot) ∧
    (data.lookup "is_open_source" = none → t.is_open_source = 0) ∧
    (∀ v, data.lookup "is_open_source" = some v → pyInt v = some t.is_open_source) ∧
    (data.lookup "renounced" = none → t.renounced = 0) ∧
    (∀ v, data.lookup "renounced" = some v → pyInt v = some t.renounced) ∧
    (data.lookup "bluechip_owner_percentage" = none → t.bluechip_owner_percentage = 0) ∧
    (∀ v, data.lookup "bluechip_owner_percentage" = some v → pyFloat v = some t.bluechip_owner_percentage) ∧
    (data.lookup "logo" = none → t.logo = .vNone) ∧
    (∀ v, data.lookup "logo" = some v → t.logo = v) ∧
    (data.lookup "buy_tax" = none → t.buy_tax = .vNone) ∧
    (∀ v, data.lookup "buy_tax" = some v → t.buy_tax = v) ∧
    (data.lookup "sell_tax" = none → t.sell_tax = .vNone) ∧
    (∀ v, data.lookup "sell_tax" = some v → t.sell_tax = v) ∧
    (data.lookup "total_supply" = none → t.total_supply = .vNone) ∧
    (∀ v, data.lookup "total_supply" = some v → t.total_supply = v) ∧
    (data.lookup "buys" = none → t.buys = .vNone) ∧
    (∀ v, data.lookup "buys" = some v → t.buys = v) ∧
    (data.lookup "sells" = none → t.sells = .vNone) ∧
    (∀ v, data.lookup "sells" = some v → t.sells = v) ∧
    (data.lookup "sniper_count" = none → t.sniper_count = .vNone) ∧
    (∀ v, data.lookup "sniper_count" = some v → t.sniper_count = v) ∧
    (data.lookup "lockInfo" = none → t.lock_info = .vNone) ∧
    (∀ v, data.lookup "lockInfo" = some v → t.lock_info = v)
    := by
  unfold Token.from_dict at h
  obtain ⟨v1, hv1, h⟩ := bindSome h
  obtain ⟨v2, hv2, h⟩ := bindSome h
  obtain ⟨v3, hv3, h⟩ := bindSome h
  obtain ⟨v4, hv4, h⟩ := bindSome h
  obtain ⟨v5, hv5, h⟩ := bindSome h
  obtain ⟨v6, hv6, h⟩ := bindSome h
  obtain ⟨v7, hv7, h⟩ := bindSome h
  obtain ⟨v8, hv8, h⟩ := bindSome h
  obtain ⟨v9, hv9, h⟩ := bindSome h
  obtain ⟨v10, hv10, h⟩ := bindSome h
  obtain ⟨v11, hv11, h⟩ := bindSome h
  obtain ⟨v12, hv12, h⟩ := bindSome h
  obtain ⟨v13, hv13, h⟩ := bindSome h
  obtain ⟨v14, hv14, h⟩ := bindSome h
  obtain ⟨v15, hv15, h⟩ := bindSome h
  obtain ⟨v16, hv16, h⟩ := bindSome h
  have ht := Option.some.inj h
  subst ht
  exact ⟨
    (dictGet_cases data "id" (.vInt 0)).1, (dictGet_cases data "id" (.vInt 0)).2,
    (dictGet_cases data "chain" (.vStr "")).1, (dictGet_cases data "chain" (.vStr "")).2,
    (dictGet_cases data "address" (.vStr "")).1, (dictGet_cases data "address" (.vStr "")).2,
    (dictGet_cases data "symbol" (.vStr "")).1, (dictGet_cases data "symbol" (.vStr "")).2,
    (coerceQ_cases data "price" v1 hv1).1, (coerceQ_cases data "price" v1 hv1).2,
    (coerceQ_cases data "volume" v2 hv2).1, (coerceQ_cases data "volume" v2 hv2).2,
    (coerceQ_cases data "liquidity" v3 hv3).1, (coerceQ_cases data "liquidity" v3 hv3).2,
    (coerceQ_cases data "market_cap" v4 hv4).1, (coerceQ_cases data "market_cap" v4 hv4).2,
    (coerceZ_cases data "holder_count" v5 hv5).1, (coerceZ_cases data "holder_count" v5 hv5).2,
    (coerceZ_cases data "swaps" v6 hv6).1, (coerceZ_cases data "swaps" v6 hv6).2,
    (coerceQ_cases data "price_change_percent" v7 hv7).1, (coerceQ_cases data "price_change_percent" v7 hv7).2,
    (coerceQ_cases data "price_change_percent1m" v8 hv8).1, (coerceQ_cases data "price_change_percent1m" v8 hv8).2,
    (coerceQ_cases data "price_change_percent5m" v9 hv9).1, (coerceQ_cases data "price_change_percent5m" v9 hv9).2,
    (coerceQ_cases data "price_change_percent1h" v10 hv10).1, (coerceQ_cases data "price_change_percent1h" v10 hv10).2,
    (coerceZ_cases data "smart_buy_24h" v11 hv11).1, (coerceZ_cases data "smart_buy_24h" v11 hv11).2,
    (coerceZ_cases data "smart_sell_24h" v12 hv12).1, (coerceZ_cases data "smart_sell_24h" v12 hv12).2,
    (coerceZ_cases data "is_honeypot" v13 hv13).1, (coerceZ_cases data "is_honeypot" v13 hv13).2,
    (coerceZ_cases data "is_open_source" v14 hv14).1, (coerceZ_cases data "is_open_source" v14 hv14).2,
    (coerceZ_cases data "renounced" v15 hv15).1, (coerceZ_cases data "renounced" v15 hv15).2,
    (coerceQ_cases data "bluechip_owner_percentage" v16 hv16).1, (coerceQ_cases data "bluechip_owner_percentage" v16 hv16).2,
    (dictGet_cases data "logo" .vNone).1, (dictGet_cases data "logo" .vNone).2,
    (dictGet_cases data "buy_tax" .vNone).1, (dictGet_cases data "buy_tax" .vNone).2,
    (dictGet_cases data "sell_tax" .vNone).1, (dictGet_cases data "sell_tax" .vNone).2,
    (dictGet_cases data "total_supply" .vNone).1, (dictGet_cases data "total_supply" .vNone).2,
    (dictGet_cases data "buys" .vNone).1, (dictGet_cases data "buys" .vNone).2,
    (dictGet_cases data "sells" .vNone).1, (dictGet_cases data "sells" .vNone).2,
    (dictGet_cases data "sniper_count" .vNone).1, (dictGet_cases data "sniper_count" .vNone).2,
    (dictGet_cases data "lockInfo" .vNone).1, (dictGet_cases data "lockInfo" .vNone).2
    ⟩

/-- C6 (counterexample): `Token.from_dict` does not return a Token on every
input mapping: a mapping whose `price` key holds None makes the `float()`
coercion raise a TypeError, so the construction fails instead of
returning a default-filled token. -/
theorem from_dict_raises_counterexample :
    Token.from_dict [("price", PyVal.vNone)] = none := rfl

/-- C6 (witness): the field specification applied to the empty mapping and
the all-defaults token, reading off the default of the absent `id` key. -/
theorem from_dict_field_spec_witness :
    tokenDefault.id = PyVal.vInt 0 :=
  (from_dict_field_spec [] tokenDefault rfl).1 rfl
